import Mathlib

/-!
# Verification of the dgx-pixels generation-job IPC and scheduling core

Shallow embedding of the Python sources under `src/python/workers/` and
`src/python/batch/` (message protocol, job queue, progress tracker, job
executor, priority batch scheduler), with theorems settling the frozen
claims about the natural-language specification.

Conventions of the embedding:
* Python `float` values that only ever hold exact decimal constants and
  arithmetic on them are modelled as `Rat`.
* Calls to `time.time()` are modelled by threading an explicit `now : Rat`
  argument into every operation that reads the clock.
* Python dictionaries keyed by strings are modelled as association lists
  with first-match lookup; in-place mutation of a stored object is
  modelled by rewriting the binding.
* The MessagePack layer (`msgpack.packb` / `msgpack.unpackb`) is an
  external library assumed to round-trip the self-describing map
  faithfully, so the wire representation of a message is modelled as the
  map (`MValue.dict`) itself.
-/

namespace DgxPixels

/-! ## Message protocol (`src/python/workers/message_protocol.py`)

`GenerationStage`, `ModelType`, the three message families and their
`to_dict` / `deserialize_*` functions. -/

/-- `GenerationStage` enumeration (message_protocol.py lines 38-46). -/
inductive GenerationStage where
  | initializing
  | loadingModels
  | encoding
  | sampling
  | decoding
  | postProcessing
  deriving DecidableEq, Repr

/-- The `str` value carried by each `GenerationStage` enum member. -/
def GenerationStage.value : GenerationStage → String
  | .initializing => "initializing"
  | .loadingModels => "loading_models"
  | .encoding => "encoding"
  | .sampling => "sampling"
  | .decoding => "decoding"
  | .postProcessing => "post_processing"

/-- `GenerationStage(s)`: recover the enum member from its value, as the
Python enum constructor does (raising `ValueError`, i.e. `none`, on an
unknown value). -/
def GenerationStage.ofValue : String → Option GenerationStage
  | "initializing" => some .initializing
  | "loading_models" => some .loadingModels
  | "encoding" => some .encoding
  | "sampling" => some .sampling
  | "decoding" => some .decoding
  | "post_processing" => some .postProcessing
  | _ => none

/-- `ModelType` enumeration (message_protocol.py lines 30-35). -/
inductive ModelType where
  | checkpoint
  | lora
  | vae
  deriving DecidableEq, Repr

def ModelType.value : ModelType → String
  | .checkpoint => "checkpoint"
  | .lora => "lora"
  | .vae => "vae"

def ModelType.ofValue : String → Option ModelType
  | "checkpoint" => some .checkpoint
  | "lora" => some .lora
  | "vae" => some .vae
  | _ => none

/-- A MessagePack-style self-describing value: the codomain of `to_dict`
and the domain of the deserializers.  Python `int` fields are `int`,
`float` fields are `rat`, lists and nested maps are `list` and `dict`. -/
inductive MValue where
  | str (s : String)
  | int (n : Int)
  | rat (q : Rat)
  | bool (b : Bool)
  | list (xs : List MValue)
  | dict (xs : List (String × MValue))

/-- First-match key lookup in an encoded map (`obj.get(k)` / `obj[k]`). -/
def mget (d : List (String × MValue)) (k : String) : Option MValue :=
  match d with
  | [] => none
  | (k', v) :: rest => if k' = k then some v else mget rest k

def MValue.asStr : MValue → Option String
  | .str s => some s
  | _ => none

def MValue.asInt : MValue → Option Int
  | .int n => some n
  | _ => none

def MValue.asRat : MValue → Option Rat
  | .rat q => some q
  | _ => none

def MValue.asBool : MValue → Option Bool
  | .bool b => some b
  | _ => none

/-- Reads a Python list of ints element by element (the first non-int
element makes the whole read fail, as iterating the msgpack value would). -/
def intListOf : List MValue → Option (List Int)
  | [] => some []
  | v :: vs =>
    match v.asInt, intListOf vs with
    | some n, some ns => some (n :: ns)
    | _, _ => none

def MValue.asIntList : MValue → Option (List Int)
  | .list xs => intListOf xs
  | _ => none

def MValue.asDict : MValue → Option (List (String × MValue))
  | .dict xs => some xs
  | _ => none

/-- Request family (message_protocol.py lines 54-126). -/
inductive Request where
  | generate (id prompt model : String) (size : List Int) (steps : Int)
      (cfgScale : Rat) (lora : Option String) (batchSize : Option Int)
      (animationFrames : Option Int) (tilesetGrid : Option (List Int))
  | cancel (jobId : String)
  | listModels
  | status
  | ping
  deriving DecidableEq, Repr

/-- `ModelInfo` (message_protocol.py lines 188-202). -/
structure ModelInfo where
  name : String
  path : String
  modelType : ModelType
  sizeMb : Int
  deriving DecidableEq, Repr

/-- Response family (message_protocol.py lines 134-261). -/
inductive Response where
  | jobAccepted (jobId : String) (estimatedTimeS : Rat)
  | jobComplete (jobId imagePath : String) (durationS : Rat)
  | jobError (jobId error : String)
  | jobCancelled (jobId : String)
  | modelList (models : List ModelInfo)
  | statusInfo (version : String) (queueSize activeJobs uptimeS : Int)
  | pong
  | error (message : String)
  deriving DecidableEq, Repr

/-- Update family (message_protocol.py lines 269-337). -/
inductive Update where
  | jobStarted (jobId : String) (timestamp : Int)
  | progress (jobId : String) (stage : GenerationStage) (step totalSteps : Int)
      (percent etaS : Rat)
  | preview (jobId imagePath : String) (step : Int)
  | jobFinished (jobId : String) (success : Bool) (durationS : Rat)
  deriving DecidableEq, Repr

/-- `GenerateRequest.to_dict` builds the required keys and appends each
optional key only when the field is not `None` (lines 69-87); the other
request variants' `to_dict` are a single literal each. -/
def Request.toDict : Request → List (String × MValue)
  | .generate id prompt model size steps cfgScale lora batchSize
      animationFrames tilesetGrid =>
    [("type", .str "generate"), ("id", .str id), ("prompt", .str prompt),
     ("model", .str model), ("size", .list (size.map MValue.int)),
     ("steps", .int steps), ("cfg_scale", .rat cfgScale)]
    ++ (match lora with | some l => [("lora", .str l)] | none => [])
    ++ (match batchSize with | some b => [("batch_size", .int b)] | none => [])
    ++ (match animationFrames with
        | some a => [("animation_frames", .int a)] | none => [])
    ++ (match tilesetGrid with
        | some t => [("tileset_grid", .list (t.map MValue.int))] | none => [])
  | .cancel jobId => [("type", .str "cancel"), ("job_id", .str jobId)]
  | .listModels => [("type", .str "list_models")]
  | .status => [("type", .str "status")]
  | .ping => [("type", .str "ping")]

/-- `ModelInfo.to_dict` (lines 196-202). -/
def ModelInfo.toDict (m : ModelInfo) : List (String × MValue) :=
  [("name", .str m.name), ("path", .str m.path),
   ("model_type", .str m.modelType.value), ("size_mb", .int m.sizeMb)]

/-- `to_dict` for each response variant (lines 141-249). -/
def Response.toDict : Response → List (String × MValue)
  | .jobAccepted jobId estimatedTimeS =>
    [("type", .str "job_accepted"), ("job_id", .str jobId),
     ("estimated_time_s", .rat estimatedTimeS)]
  | .jobComplete jobId imagePath durationS =>
    [("type", .str "job_complete"), ("job_id", .str jobId),
     ("image_path", .str imagePath), ("duration_s", .rat durationS)]
  | .jobError jobId err =>
    [("type", .str "job_error"), ("job_id", .str jobId), ("error", .str err)]
  | .jobCancelled jobId =>
    [("type", .str "job_cancelled"), ("job_id", .str jobId)]
  | .modelList models =>
    [("type", .str "model_list"),
     ("models", .list (models.map (fun m => MValue.dict m.toDict)))]
  | .statusInfo version queueSize activeJobs uptimeS =>
    [("type", .str "status_info"), ("version", .str version),
     ("queue_size", .int queueSize), ("active_jobs", .int activeJobs),
     ("uptime_s", .int uptimeS)]
  | .pong => [("type", .str "pong")]
  | .error msg => [("type", .str "error"), ("message", .str msg)]

/-- `to_dict` for each update variant (lines 276-334). -/
def Update.toDict : Update → List (String × MValue)
  | .jobStarted jobId timestamp =>
    [("type", .str "job_started"), ("job_id", .str jobId),
     ("timestamp", .int timestamp)]
  | .progress jobId stage step totalSteps percent etaS =>
    [("type", .str "progress"), ("job_id", .str jobId),
     ("stage", .str stage.value), ("step", .int step),
     ("total_steps", .int totalSteps), ("percent", .rat percent),
     ("eta_s", .rat etaS)]
  | .preview jobId imagePath step =>
    [("type", .str "preview"), ("job_id", .str jobId),
     ("image_path", .str imagePath), ("step", .int step)]
  | .jobFinished jobId success durationS =>
    [("type", .str "job_finished"), ("job_id", .str jobId),
     ("success", .bool success), ("duration_s", .rat durationS)]

/-- `serialize(message)` = `msgpack.packb(message.to_dict())` (lines
345-348); the wire value is modelled as the encoded map itself. -/
def serializeRequest (r : Request) : MValue := .dict r.toDict

def serializeResponse (r : Response) : MValue := .dict r.toDict

def serializeUpdate (u : Update) : MValue := .dict u.toDict

/-- Deserialization errors: a missing required key raises `KeyError`, an
unknown discriminator raises `ValueError`, a value of the wrong shape for
the enum constructors raises `ValueError`. -/
inductive DecodeError where
  | keyError (key : String)
  | valueError (msg : String)
  deriving DecidableEq, Repr

/-- `obj[k]` — raising `KeyError` when missing. -/
def mreq (d : List (String × MValue)) (k : String)
    (conv : MValue → Option α) : Except DecodeError α :=
  match mget d k with
  | none => .error (.keyError k)
  | some v =>
    match conv v with
    | none => .error (.valueError k)
    | some a => .ok a

/-- `obj.get(k)` for an optional field, converted when present. -/
def mopt (d : List (String × MValue)) (k : String)
    (conv : MValue → Option α) : Except DecodeError (Option α) :=
  match mget d k with
  | none => .ok none
  | some v =>
    match conv v with
    | none => .error (.valueError k)
    | some a => .ok (some a)

/-- `deserialize_request` (message_protocol.py lines 351-378). -/
def deserializeRequest (wire : MValue) : Except DecodeError Request := do
  let obj ← match wire.asDict with
    | some d => pure d
    | none => .error (.valueError "not a map")
  match (mget obj "type").bind MValue.asStr with
  | some "generate" => do
    let id ← mreq obj "id" MValue.asStr
    let prompt ← mreq obj "prompt" MValue.asStr
    let model ← mreq obj "model" MValue.asStr
    let size ← mreq obj "size" MValue.asIntList
    let steps ← mreq obj "steps" MValue.asInt
    let cfgScale ← mreq obj "cfg_scale" MValue.asRat
    let lora ← mopt obj "lora" MValue.asStr
    let batchSize ← mopt obj "batch_size" MValue.asInt
    let animationFrames ← mopt obj "animation_frames" MValue.asInt
    let tilesetGrid ← mopt obj "tileset_grid" MValue.asIntList
    return .generate id prompt model size steps cfgScale lora batchSize
      animationFrames tilesetGrid
  | some "cancel" => do
    let jobId ← mreq obj "job_id" MValue.asStr
    return .cancel jobId
  | some "list_models" => return .listModels
  | some "status" => return .status
  | some "ping" => return .ping
  | some other => .error (.valueError ("Unknown request type: " ++ other))
  | none => .error (.valueError "Unknown request type: None")

/-- Decoding of one entry of the `models` list (lines 401-409). -/
def decodeModelInfo (v : MValue) : Except DecodeError ModelInfo := do
  let m ← match v.asDict with
    | some d => pure d
    | none => .error (.valueError "not a map")
  let name ← mreq m "name" MValue.asStr
  let path ← mreq m "path" MValue.asStr
  let modelTypeStr ← mreq m "model_type" MValue.asStr
  let modelType ← match ModelType.ofValue modelTypeStr with
    | some t => pure t
    | none => .error (.valueError "model_type")
  let sizeMb ← mreq m "size_mb" MValue.asInt
  return { name := name, path := path, modelType := modelType, sizeMb := sizeMb }

/-- The list comprehension over `obj["models"]` (lines 401-409): decodes
entries left to right, the first failure raising out of the whole read. -/
def decodeModels : List MValue → Except DecodeError (List ModelInfo)
  | [] => .ok []
  | v :: vs => do
    let m ← decodeModelInfo v
    let ms ← decodeModels vs
    return m :: ms

/-- `deserialize_response` (message_protocol.py lines 381-423). -/
def deserializeResponse (wire : MValue) : Except DecodeError Response := do
  let obj ← match wire.asDict with
    | some d => pure d
    | none => .error (.valueError "not a map")
  match (mget obj "type").bind MValue.asStr with
  | some "job_accepted" => do
    let jobId ← mreq obj "job_id" MValue.asStr
    let estimatedTimeS ← mreq obj "estimated_time_s" MValue.asRat
    return .jobAccepted jobId estimatedTimeS
  | some "job_complete" => do
    let jobId ← mreq obj "job_id" MValue.asStr
    let imagePath ← mreq obj "image_path" MValue.asStr
    let durationS ← mreq obj "duration_s" MValue.asRat
    return .jobComplete jobId imagePath durationS
  | some "job_error" => do
    let jobId ← mreq obj "job_id" MValue.asStr
    let error ← mreq obj "error" MValue.asStr
    return .jobError jobId error
  | some "job_cancelled" => do
    let jobId ← mreq obj "job_id" MValue.asStr
    return .jobCancelled jobId
  | some "model_list" => do
    let modelsRaw ← mreq obj "models" (fun v =>
      match v with | .list xs => some xs | _ => none)
    let models ← decodeModels modelsRaw
    return .modelList models
  | some "status_info" => do
    let version ← mreq obj "version" MValue.asStr
    let queueSize ← mreq obj "queue_size" MValue.asInt
    let activeJobs ← mreq obj "active_jobs" MValue.asInt
    let uptimeS ← mreq obj "uptime_s" MValue.asInt
    return .statusInfo version queueSize activeJobs uptimeS
  | some "pong" => return .pong
  | some "error" => do
    let message ← mreq obj "message" MValue.asStr
    return .error message
  | some other => .error (.valueError ("Unknown response type: " ++ other))
  | none => .error (.valueError "Unknown response type: None")

/-- `deserialize_update` (message_protocol.py lines 426-451). -/
def deserializeUpdate (wire : MValue) : Except DecodeError Update := do
  let obj ← match wire.asDict with
    | some d => pure d
    | none => .error (.valueError "not a map")
  match (mget obj "type").bind MValue.asStr with
  | some "job_started" => do
    let jobId ← mreq obj "job_id" MValue.asStr
    let timestamp ← mreq obj "timestamp" MValue.asInt
    return .jobStarted jobId timestamp
  | some "progress" => do
    let jobId ← mreq obj "job_id" MValue.asStr
    let stageStr ← mreq obj "stage" MValue.asStr
    let stage ← match GenerationStage.ofValue stageStr with
      | some s => pure s
      | none => .error (.valueError "stage")
    let step ← mreq obj "step" MValue.asInt
    let totalSteps ← mreq obj "total_steps" MValue.asInt
    let percent ← mreq obj "percent" MValue.asRat
    let etaS ← mreq obj "eta_s" MValue.asRat
    return .progress jobId stage step totalSteps percent etaS
  | some "preview" => do
    let jobId ← mreq obj "job_id" MValue.asStr
    let imagePath ← mreq obj "image_path" MValue.asStr
    let step ← mreq obj "step" MValue.asInt
    return .preview jobId imagePath step
  | some "job_finished" => do
    let jobId ← mreq obj "job_id" MValue.asStr
    let success ← mreq obj "success" MValue.asBool
    let durationS ← mreq obj "duration_s" MValue.asRat
    return .jobFinished jobId success durationS
  | some other => .error (.valueError ("Unknown update type: " ++ other))
  | none => .error (.valueError "Unknown update type: None")

/-! ### Round-trip lemmas for the protocol -/

theorem asIntList_map_int (xs : List Int) :
    MValue.asIntList (.list (xs.map MValue.int)) = some xs := by
  induction xs with
  | nil => rfl
  | cons x xs ih =>
    simp only [MValue.asIntList] at *
    simp [intListOf, MValue.asInt, ih]

theorem stage_ofValue_value (s : GenerationStage) :
    GenerationStage.ofValue s.value = some s := by
  cases s <;> rfl

theorem modelType_ofValue_value (t : ModelType) :
    ModelType.ofValue t.value = some t := by
  cases t <;> rfl

theorem decodeModelInfo_toDict (m : ModelInfo) :
    decodeModelInfo (.dict m.toDict) = .ok m := by
  obtain ⟨name, path, modelType, sizeMb⟩ := m
  cases modelType <;> rfl

theorem decodeModels_map_toDict (models : List ModelInfo) :
    decodeModels (models.map (fun m => MValue.dict m.toDict))
      = Except.ok models := by
  induction models with
  | nil => rfl
  | cons m ms ih =>
    simp [decodeModels, decodeModelInfo_toDict, ih, bind, Except.bind, pure,
      Except.pure]

theorem roundtrip_request (r : Request) :
    deserializeRequest (serializeRequest r) = .ok r := by
  cases r with
  | generate id prompt model size steps cfgScale lora batchSize
      animationFrames tilesetGrid =>
    cases lora <;> cases batchSize <;> cases animationFrames <;>
      cases tilesetGrid <;>
      simp [serializeRequest, Request.toDict, deserializeRequest, mget,
        mreq, mopt, MValue.asDict, MValue.asStr, MValue.asInt, MValue.asRat,
        asIntList_map_int, bind, Except.bind, pure, Except.pure]
  | cancel jobId => rfl
  | listModels => rfl
  | status => rfl
  | ping => rfl

theorem roundtrip_response (r : Response) :
    deserializeResponse (serializeResponse r) = .ok r := by
  cases r with
  | modelList models =>
    simp [serializeResponse, Response.toDict, deserializeResponse, mget,
      mreq, MValue.asDict, MValue.asStr, decodeModels_map_toDict, bind,
      Except.bind, pure, Except.pure]
  | _ => rfl

theorem roundtrip_update (u : Update) :
    deserializeUpdate (serializeUpdate u) = .ok u := by
  cases u with
  | progress jobId stage step totalSteps percent etaS =>
    cases stage <;> rfl
  | _ => rfl

/-- **C3.** For every message variant of every family, deserializing the
serialization with that family's decoder yields the original message,
field for field, including absent optional fields. -/
theorem c3_encode_decode_roundtrip :
    (∀ r : Request, deserializeRequest (serializeRequest r) = .ok r) ∧
    (∀ r : Response, deserializeResponse (serializeResponse r) = .ok r) ∧
    (∀ u : Update, deserializeUpdate (serializeUpdate u) = .ok u) :=
  ⟨roundtrip_request, roundtrip_response, roundtrip_update⟩

/-! ## Job queue (`src/python/workers/job_queue.py`)

`JobStatus`, `Job` and the `JobQueue` operations.  The `_jobs` dict is an
association list with first-match lookup; in-place mutation of the stored
`Job` object rewrites its binding. -/

/-- `JobStatus` enumeration (job_queue.py lines 10-17). -/
inductive JobStatus where
  | queued
  | running
  | completed
  | failed
  | cancelled
  deriving DecidableEq, Repr

/-- `Job` dataclass (job_queue.py lines 20-36).  `created_at` is stamped
from the clock argument of `addJob`. -/
structure Job where
  jobId : String
  prompt : String
  model : String
  size : List Int
  steps : Int
  cfgScale : Rat
  lora : Option String := none
  status : JobStatus := .queued
  createdAt : Rat
  startedAt : Option Rat := none
  completedAt : Option Rat := none
  error : Option String := none
  outputPath : Option String := none
  deriving DecidableEq, Repr

/-- First-match lookup in a string-keyed association list (`dict.get`). -/
def alget {β : Type} : List (String × β) → String → Option β
  | [], _ => none
  | (k, v) :: rest, id => if k = id then some v else alget rest id

/-- In-place mutation of the object stored under a key (every binding of
that key is rewritten; well-formed states bind each key once). -/
def alset {β : Type} : List (String × β) → String → (β → β) →
    List (String × β)
  | [], _, _ => []
  | (k, v) :: rest, id, f =>
    (k, if k = id then f v else v) :: alset rest id f

/-- `self._jobs[job_id] = job`: dict assignment overwrites an existing
binding, otherwise appends a new one. -/
def aldictSet {β : Type} (l : List (String × β)) (id : String) (v : β) :
    List (String × β) :=
  if l.any (fun kv => kv.1 = id) then alset l id (fun _ => v) else l ++ [(id, v)]

/-- `JobQueue` state: `_jobs` map and `_queue` pending index
(job_queue.py lines 42-44). -/
structure JobQueueState where
  jobs : List (String × Job)
  queue : List String
  deriving DecidableEq, Repr

def emptyJobQueue : JobQueueState := ⟨[], []⟩

/-- `JobQueue.add_job` (lines 46-73), with the caller-supplied id (the
`uuid4` default for a missing id is external randomness and is modelled
by the caller passing the generated string). -/
def addJob (s : JobQueueState) (prompt model : String) (size : List Int)
    (steps : Int) (cfgScale : Rat) (lora : Option String) (jobId : String)
    (now : Rat) : Job × JobQueueState :=
  let job : Job :=
    { jobId := jobId, prompt := prompt, model := model,
      size := size, steps := steps, cfgScale := cfgScale, lora := lora,
      createdAt := now }
  (job, { jobs := aldictSet s.jobs jobId job, queue := s.queue ++ [jobId] })

/-- The `while self._queue` loop of `JobQueue.get_next_job` (lines
75-86): pops ids until one maps to a still-`QUEUED` job, flips it to
`RUNNING`, stamps `started_at` and returns it. -/
def getNextAux (jobs : List (String × Job)) (queue : List String)
    (now : Rat) : Option Job × List (String × Job) × List String :=
  match queue with
  | [] => (none, jobs, [])
  | id :: rest =>
    match alget jobs id with
    | some jb =>
      if jb.status = .queued then
        let jb' := { jb with status := .running, startedAt := some now }
        (some jb', alset jobs id (fun _ => jb'), rest)
      else getNextAux jobs rest now
    | none => getNextAux jobs rest now

/-- `JobQueue.get_next_job` (lines 75-86). -/
def getNextJob (s : JobQueueState) (now : Rat) : Option Job × JobQueueState :=
  match getNextAux s.jobs s.queue now with
  | (r, jobs, queue) => (r, ⟨jobs, queue⟩)

/-- `JobQueue.get_job` (lines 88-90). -/
def getJob (s : JobQueueState) (jobId : String) : Option Job :=
  alget s.jobs jobId

/-- `JobQueue.complete_job` (lines 92-98): if the id is known, the job's
status, `completed_at` and `output_path` are overwritten unconditionally
(no check of the current status). -/
def completeJob (s : JobQueueState) (jobId outputPath : String) (now : Rat) :
    JobQueueState :=
  match alget s.jobs jobId with
  | none => s
  | some _ =>
    { s with jobs := alset s.jobs jobId (fun j =>
        { j with status := .completed, completedAt := some now,
                 outputPath := some outputPath }) }

/-- `JobQueue.fail_job` (lines 100-106): same unconditional overwrite with
`FAILED` and the error string. -/
def failJob (s : JobQueueState) (jobId errMsg : String) (now : Rat) :
    JobQueueState :=
  match alget s.jobs jobId with
  | none => s
  | some _ =>
    { s with jobs := alset s.jobs jobId (fun j =>
        { j with status := .failed, completedAt := some now,
                 error := some errMsg }) }

/-- `JobQueue.cancel_job` (lines 108-121): only `QUEUED`/`RUNNING` jobs
are cancelled (returning `True`); the id is removed from the pending
index (`list.remove` drops the first occurrence). -/
def cancelJob (s : JobQueueState) (jobId : String) (now : Rat) :
    Bool × JobQueueState :=
  match alget s.jobs jobId with
  | some jb =>
    if jb.status = .queued ∨ jb.status = .running then
      (true,
       { jobs := alset s.jobs jobId (fun j =>
           { j with status := .cancelled, completedAt := some now }),
         queue := s.queue.erase jobId })
    else (false, s)
  | none => (false, s)

/-- `JobQueue.estimate_time` (lines 131-135): 0.1 seconds per step. -/
def estimateTime (steps : Int) : Rat := (steps : Rat) * 0.1

/-- Repeated `get_next_job` calls, one per clock value, collecting every
job the queue hands out. -/
def drainJobs : JobQueueState → List Rat → List Job
  | _, [] => []
  | s, now :: rest =>
    match getNextJob s now with
    | (some jb, s') => jb :: drainJobs s' rest
    | (none, s') => drainJobs s' rest

/-- Well-formedness: every binding in the job map stores a job whose
`job_id` field is its key.  Every state built by the queue operations
satisfies this. -/
def wfJobs (jobs : List (String × Job)) : Prop :=
  ∀ kv ∈ jobs, (kv.2).jobId = kv.1

/-! ### Lemmas about the job map and the dequeue loop -/

theorem alget_alset {β : Type} (l : List (String × β)) (id k : String)
    (f : β → β) :
    alget (alset l id f) k
      = if k = id then (alget l k).map f else alget l k := by
  induction l with
  | nil => simp [alget, alset]
  | cons kv rest ih =>
    obtain ⟨k', v⟩ := kv
    simp only [alset, alget]
    by_cases h2 : k' = k
    · subst h2
      by_cases h1 : k' = id <;> simp [h1]
    · simp only [if_neg h2, ih]

theorem alget_mem {β : Type} {l : List (String × β)} {k : String} {v : β}
    (h : alget l k = some v) : (k, v) ∈ l := by
  induction l with
  | nil => simp [alget] at h
  | cons kv rest ih =>
    obtain ⟨k', v'⟩ := kv
    by_cases hk : k' = k
    · subst hk
      simp [alget] at h
      simp [h]
    · simp [alget, hk] at h
      exact List.mem_cons_of_mem _ (ih h)

theorem wf_alget {jobs : List (String × Job)} {id : String} {jb : Job}
    (hwf : wfJobs jobs) (h : alget jobs id = some jb) : jb.jobId = id :=
  hwf (id, jb) (alget_mem h)

theorem wfJobs_alset {jobs : List (String × Job)} {id : String}
    {f : Job → Job} (hwf : wfJobs jobs)
    (hf : ∀ w, w.jobId = id → (f w).jobId = id) :
    wfJobs (alset jobs id f) := by
  induction jobs with
  | nil => intro kv h; simp [alset] at h
  | cons kv rest ih =>
    obtain ⟨k, w⟩ := kv
    have hw : w.jobId = k := hwf (k, w) (by simp)
    have hrest : wfJobs rest := fun kv hkv =>
      hwf kv (List.mem_cons_of_mem _ hkv)
    intro kv' h
    simp only [alset, List.mem_cons] at h
    rcases h with h | h
    · subst h
      by_cases hk : k = id
      · subst hk
        simpa using hf w hw
      · simpa [hk] using hw
    · exact ih hrest kv' h

/-- Shape of a successful dequeue: the returned job was `QUEUED` under
some id, is handed out flipped to `RUNNING` with `started_at` stamped,
and the map is rewritten at exactly that id. -/
theorem getNextAux_some (now : Rat) (queue : List String) :
    ∀ (jobs : List (String × Job)) (b : Job),
      (getNextAux jobs queue now).1 = some b →
      ∃ id prev, alget jobs id = some prev ∧ prev.status = .queued ∧
        b = { prev with status := .running, startedAt := some now } ∧
        (getNextAux jobs queue now).2.1 = alset jobs id (fun _ => b) := by
  induction queue with
  | nil => intro jobs b h; simp [getNextAux] at h
  | cons id rest ih =>
    intro jobs b h
    simp only [getNextAux] at h ⊢
    cases hjb : alget jobs id with
    | none =>
      simp only [hjb] at h ⊢
      exact ih jobs b h
    | some jb =>
      simp only [hjb] at h ⊢
      by_cases hq : jb.status = .queued
      · simp only [if_pos hq] at h ⊢
        have hb := Option.some.inj h
        exact ⟨id, jb, hjb, hq, hb.symm, by rw [hb]⟩
      · simp only [if_neg hq] at h ⊢
        exact ih jobs b h

/-- A dequeue that returns nothing leaves the job map unchanged. -/
theorem getNextAux_none (now : Rat) (queue : List String) :
    ∀ (jobs : List (String × Job)),
      (getNextAux jobs queue now).1 = none →
      (getNextAux jobs queue now).2.1 = jobs := by
  induction queue with
  | nil => intro jobs _; simp [getNextAux]
  | cons id rest ih =>
    intro jobs h
    simp only [getNextAux] at h ⊢
    cases hjb : alget jobs id with
    | none =>
      simp only [hjb] at h ⊢
      exact ih jobs h
    | some jb =>
      simp only [hjb] at h ⊢
      by_cases hq : jb.status = .queued
      · simp [if_pos hq] at h
      · simp only [if_neg hq] at h ⊢
        exact ih jobs h

/-- Once a job id maps to a `CANCELLED` job, no sequence of
`get_next_job` calls ever hands out a job with that id. -/
theorem drainJobs_avoid (j : String) (jb : Job) (hc : jb.status = .cancelled) :
    ∀ (times : List Rat) (s : JobQueueState),
      wfJobs s.jobs → alget s.jobs j = some jb →
      ∀ b ∈ drainJobs s times, b.jobId ≠ j := by
  intro times
  induction times with
  | nil => intro s _ _ b hb; simp [drainJobs] at hb
  | cons now rest ih =>
    intro s hwf hj b hb
    simp only [drainJobs, getNextJob] at hb
    rcases hr : (getNextAux s.jobs s.queue now) with ⟨r, jobs', queue'⟩
    rw [hr] at hb
    cases r with
    | none =>
      simp only at hb
      have hkeep : jobs' = s.jobs := by
        have := getNextAux_none now s.queue s.jobs (by rw [hr])
        rw [hr] at this; exact this
      exact ih ⟨jobs', queue'⟩ (by rw [hkeep]; exact hwf)
        (by rw [hkeep]; exact hj) b hb
    | some d =>
      obtain ⟨id, prev, hprev, hq, hd, hjobs'⟩ :=
        getNextAux_some now s.queue s.jobs d (by rw [hr])
      rw [hr] at hjobs'
      simp only at hjobs' hb
      have hid : id ≠ j := by
        intro h
        rw [h, hj] at hprev
        have : jb.status = JobStatus.queued := by
          rw [(Option.some_injective _ hprev)]
          exact hq
        rw [hc] at this
        exact JobStatus.noConfusion this
      have hdid : d.jobId = id := by
        have hp := wf_alget hwf hprev
        rw [hd]
        exact hp
      rcases List.mem_cons.mp hb with hbd | hbtail
      · rw [hbd, hdid]; exact hid
      · have hwf' : wfJobs jobs' := by
          rw [hjobs']
          exact wfJobs_alset hwf (fun w _ => hdid)
        have hj' : alget jobs' j = some jb := by
          rw [hjobs', alget_alset, if_neg (fun h => hid h.symm)]
          exact hj
        exact ih ⟨jobs', queue'⟩ hwf' hj' b hbtail

/-! ### Concrete queue states used by witnesses and counterexamples -/

/-- A job already cancelled (terminal). -/
def jobA : Job :=
  { jobId := "a", prompt := "p", model := "m", size := [64, 64], steps := 20,
    cfgScale := 7, createdAt := 0, status := .cancelled, startedAt := some 1,
    completedAt := some 2 }

/-- A state holding only the cancelled job. -/
def cancelledState : JobQueueState := ⟨[("a", jobA)], []⟩

/-- A freshly queued job. -/
def queuedJobB : Job :=
  { jobId := "b", prompt := "q", model := "m", size := [32, 32], steps := 10,
    cfgScale := 8, createdAt := 0 }

/-- A state holding only the queued job, still in the pending index. -/
def queuedState : JobQueueState := ⟨[("b", queuedJobB)], ["b"]⟩

/-- A state holding the cancelled job and the queued job. -/
def mixedState : JobQueueState := ⟨[("a", jobA), ("b", queuedJobB)], ["b"]⟩

/-- **C1 counterexample.** `complete_job` on an already-terminal id is not
a no-op: on a `CANCELLED` job it overwrites the status to `COMPLETED`
(job_queue.py lines 92-98 check only that the id exists, not the current
status), so an operation does move a job out of a terminal state. -/
theorem c1_counterexample_complete_overwrites_cancelled :
    getJob cancelledState "a" = some jobA ∧ jobA.status = .cancelled ∧
    (getJob (completeJob cancelledState "a" "out.png" 3) "a").map Job.status
      = some .completed := by
  refine ⟨rfl, rfl, ?_⟩
  decide

/-- **C1 (amended).** Job statuses move along
Queued→Running→{Completed,Failed} / {Queued,Running}→Cancelled under
`get_next_job`/`cancel_job`, and `cancel`/`complete`/`fail` on an unknown
id are no-ops; but `complete`/`fail` on any *known* id overwrite the
status, `completed_at` and output/error fields unconditionally, including
from a terminal state. -/
theorem c1_amended_transitions :
    (∀ (s : JobQueueState) (id : String) (now : Rat),
      (alget s.jobs id = none ∨
        ∃ jb, alget s.jobs id = some jb ∧ jb.status ≠ .queued ∧
          jb.status ≠ .running) →
      cancelJob s id now = (false, s)) ∧
    (∀ (s : JobQueueState) (id out err : String) (now : Rat),
      alget s.jobs id = none →
      completeJob s id out now = s ∧ failJob s id err now = s) ∧
    (∀ (s : JobQueueState) (id out err : String) (now : Rat) (jb : Job),
      alget s.jobs id = some jb →
      alget (completeJob s id out now).jobs id
        = some { jb with status := .completed, completedAt := some now, outputPath := some out } ∧
      alget (failJob s id err now).jobs id
        = some { jb with status := .failed, completedAt := some now, error := some err }) ∧
    (∀ (s : JobQueueState) (now : Rat) (b : Job) (s' : JobQueueState),
      getNextJob s now = (some b, s') →
      ∃ id prev, alget s.jobs id = some prev ∧ prev.status = .queued ∧
        b = { prev with status := .running, startedAt := some now }) := by
  refine ⟨?_, ?_, ?_, ?_⟩
  · intro s id now h
    rcases h with h | ⟨jb, hjb, h1, h2⟩
    · simp [cancelJob, h]
    · simp [cancelJob, hjb, h1, h2]
  · intro s id out err now h
    constructor
    · simp [completeJob, h]
    · simp [failJob, h]
  · intro s id out err now jb hjb
    constructor
    · simp [completeJob, hjb, alget_alset]
    · simp [failJob, hjb, alget_alset]
  · intro s now b s' h
    rcases haux : getNextAux s.jobs s.queue now with ⟨r, jobs2, queue2⟩
    simp only [getNextJob, haux] at h
    have hr : r = some b := congrArg Prod.fst h
    obtain ⟨id, prev, hprev, hq, hb, _⟩ :=
      getNextAux_some now s.queue s.jobs b (by rw [haux]; exact hr)
    exact ⟨id, prev, hprev, hq, hb⟩

/-- Witness for the amended C1 at concrete inputs. -/
theorem c1_amended_transitions_witness :
    cancelJob cancelledState "a" 3 = (false, cancelledState) ∧
    completeJob emptyJobQueue "z" "o.png" 1 = emptyJobQueue ∧
    alget (completeJob mixedState "a" "o.png" 4).jobs "a"
      = some { jobA with status := .completed, completedAt := some (4 : Rat), outputPath := some "o.png" } := by
  refine ⟨?_, ?_, ?_⟩
  · exact c1_amended_transitions.1 cancelledState "a" 3
      (Or.inr ⟨jobA, by decide, by decide, by decide⟩)
  · exact (c1_amended_transitions.2.1 emptyJobQueue "z" "o.png" "e" 1
      (by decide)).1
  · exact (c1_amended_transitions.2.2.1 mixedState "a" "o.png" "e" 4 jobA
      (by decide)).1

/-- **C6.** `cancel_job` returns `True` iff the job exists and is
non-terminal; cancelling a queued job stamps `CANCELLED`/`completed_at`,
removes the id from the pending index, and no subsequent `get_next_job`
call ever returns a job with that id. -/
theorem c6_cancel_queued :
    (∀ (s : JobQueueState) (id : String) (now : Rat),
      (cancelJob s id now).1 = true ↔
        ∃ jb, alget s.jobs id = some jb ∧
          (jb.status = .queued ∨ jb.status = .running)) ∧
    (∀ (s : JobQueueState) (id : String) (now : Rat) (jb : Job),
      wfJobs s.jobs → alget s.jobs id = some jb → jb.status = .queued →
      alget (cancelJob s id now).2.jobs id
        = some { jb with status := .cancelled, completedAt := some now } ∧
      (cancelJob s id now).2.queue = s.queue.erase id ∧
      ∀ (times : List Rat), ∀ b ∈ drainJobs (cancelJob s id now).2 times,
        b.jobId ≠ id) := by
  constructor
  · intro s id now
    cases hjb : alget s.jobs id with
    | none => simp [cancelJob, hjb]
    | some jb =>
      by_cases hq : jb.status = .queued ∨ jb.status = .running
      · constructor
        · intro _; exact ⟨jb, rfl, hq⟩
        · intro _; simp [cancelJob, hjb, if_pos hq]
      · constructor
        · intro h
          exfalso
          revert h
          simp [cancelJob, hjb, if_neg hq]
        · rintro ⟨jb', hjb', hq'⟩
          cases Option.some.inj hjb'
          exact absurd hq' hq
  · intro s id now jb hwf hjb hq
    have hcond : jb.status = .queued ∨ jb.status = .running := Or.inl hq
    have hstate : (cancelJob s id now).2 = JobQueueState.mk
        (alset s.jobs id (fun j => { j with status := .cancelled, completedAt := some now }))
        (s.queue.erase id) := by
      simp [cancelJob, hjb, if_pos hcond]
    refine ⟨?_, ?_, ?_⟩
    · rw [hstate]; simp [alget_alset, hjb]
    · rw [hstate]
    · intro times b hb
      rw [hstate] at hb
      refine drainJobs_avoid id
        { jb with status := .cancelled, completedAt := some now } rfl times
        _ ?_ ?_ b hb
      · exact wfJobs_alset hwf (fun w hw => hw)
      · simp [alget_alset, hjb]

/-- Witness for C6 at a concrete queued job. -/
theorem c6_cancel_queued_witness :
    alget (cancelJob queuedState "b" 5).2.jobs "b"
      = some { queuedJobB with status := .cancelled, completedAt := some (5 : Rat) } ∧
    (cancelJob queuedState "b" 5).2.queue = queuedState.queue.erase "b" ∧
    ∀ b ∈ drainJobs (cancelJob queuedState "b" 5).2 [6, 7],
      b.jobId ≠ "b" := by
  have h := c6_cancel_queued.2 queuedState "b" 5 queuedJobB
    (by unfold wfJobs; decide) (by decide) (by decide)
  exact ⟨h.1, h.2.1, h.2.2 [6, 7]⟩

/-! ## Progress tracker (`src/python/workers/progress_tracker.py`)

`StageTimings`, `JobProgress` and the `ProgressTracker` operations,
including the stage heuristics, percent and ETA computation. -/

/-- `ExecutionStatus` (comfyui_client.py lines 37-43). -/
inductive ExecutionStatus where
  | pending
  | running
  | success
  | error
  deriving DecidableEq, Repr

/-- `WorkflowProgress` (comfyui_client.py lines 46-57). -/
structure WorkflowProgress where
  promptId : String
  status : ExecutionStatus
  currentNode : Option String := none
  nodeName : Option String := none
  step : Int := 0
  totalSteps : Int := 0
  percent : Rat := 0
  etaS : Rat := 0
  deriving DecidableEq, Repr

/-- Hardcoded default estimates (progress_tracker.py lines 50-58); every
stage is a key of the `defaults` dict, so the `.get(…, 1.0)` fallback is
unreachable. -/
def stageDefault : GenerationStage → Rat
  | .initializing => 0.5
  | .loadingModels => 2
  | .encoding => 0.5
  | .sampling => 10
  | .decoding => 1
  | .postProcessing => 0.5

/-- `StageTimings` (progress_tracker.py lines 27-61). -/
structure StageTimings where
  stage : GenerationStage
  samples : List Rat := []
  maxSamples : Int := 100
  deriving DecidableEq, Repr

/-- `StageTimings.add_sample` (lines 35-39): append, then `pop(0)` while
over the bound. -/
def StageTimings.addSample (t : StageTimings) (durationS : Rat) :
    StageTimings :=
  let samples := t.samples ++ [durationS]
  if (samples.length : Int) > t.maxSamples then
    { t with samples := samples.drop 1 }
  else
    { t with samples := samples }

/-- `StageTimings.average` (lines 41-45). -/
def StageTimings.average (t : StageTimings) : Rat :=
  if t.samples = [] then 0 else t.samples.sum / (t.samples.length : Rat)

/-- `StageTimings.estimate` (lines 47-61). -/
def StageTimings.estimate (t : StageTimings) : Rat :=
  if t.samples = [] then stageDefault t.stage else t.average

/-- `JobProgress` (progress_tracker.py lines 64-94). -/
structure JobProgress where
  jobId : String
  promptId : String
  totalSteps : Int
  startTime : Rat
  currentStage : GenerationStage := .initializing
  currentStep : Int := 0
  stageStartTime : Rat
  completedStages : List GenerationStage := []
  deriving DecidableEq, Repr

/-- `JobProgress.update_stage` (lines 81-86). -/
def JobProgress.updateStage (p : JobProgress) (newStage : GenerationStage)
    (now : Rat) : JobProgress :=
  if newStage ≠ p.currentStage then
    { p with completedStages := p.completedStages ++ [p.currentStage],
             currentStage := newStage,
             stageStartTime := now }
  else p

/-- `JobProgress.elapsed_s` (lines 88-90). -/
def JobProgress.elapsedS (p : JobProgress) (now : Rat) : Rat :=
  now - p.startTime

/-- `JobProgress.stage_elapsed_s` (lines 92-94). -/
def JobProgress.stageElapsedS (p : JobProgress) (now : Rat) : Rat :=
  now - p.stageStartTime

/-- `ProgressTracker` state (lines 112-123). -/
structure ProgressTracker where
  stageTimings : GenerationStage → StageTimings
  activeJobs : List (String × JobProgress)
  stepDurations : List Rat
  maxStepSamples : Int := 1000

/-- `ProgressTracker.__init__`: one empty `StageTimings` per stage, no
active jobs, no step samples. -/
def mkProgressTracker : ProgressTracker :=
  { stageTimings := fun stage => { stage := stage },
    activeJobs := [],
    stepDurations := [] }

/-- `ProgressTracker.start_job` (lines 125-143). -/
def startJob (t : ProgressTracker) (jobId promptId : String)
    (totalSteps : Int) (now : Rat) : JobProgress × ProgressTracker :=
  let progress : JobProgress :=
    { jobId := jobId, promptId := promptId, totalSteps := totalSteps,
      startTime := now, stageStartTime := now }
  (progress, { t with activeJobs := aldictSet t.activeJobs jobId progress })

/-- `a.isPrefixOf`-style check over char lists, for Python's `in`. -/
def listPre : List Char → List Char → Bool
  | [], _ => true
  | _ :: _, [] => false
  | a :: as, b :: bs => a = b && listPre as bs

/-- Substring occurrence over char lists. -/
def listSub : List Char → List Char → Bool
  | p, [] => p.isEmpty
  | p, c :: cs => listPre p (c :: cs) || listSub p cs

/-- Python's `pat in s` on strings. -/
def strIn (pat s : String) : Bool := listSub pat.data s.data

/-- `str.lower()` character data (ASCII case mapping, which is what the
node names here use). -/
def lowerData (s : String) : List Char := s.data.map Char.toLower

/-- Python's `pat in s.lower()`. -/
def strInLower (pat s : String) : Bool := listSub pat.data (lowerData s)

/-- Python truthiness of an optional string (`None` and `""` are falsy). -/
def pyTruthy : Option String → Bool
  | none => false
  | some s => !s.isEmpty

/-- The elapsed-time fallback of `_map_status_to_stage` (lines 245-255). -/
def stageFromElapsed (job : JobProgress) (now : Rat) : GenerationStage :=
  let elapsed := job.elapsedS now
  if elapsed < 1 then .initializing
  else if elapsed < 3 then .loadingModels
  else if elapsed < 4 then .encoding
  else .sampling

/-- `ProgressTracker._map_status_to_stage` (lines 210-261): explicit
status, then node-name substring heuristics, then elapsed-time
thresholds; unknown signals keep the job's current stage. -/
def mapStatusToStage (wp : WorkflowProgress) (job : JobProgress)
    (now : Rat) : GenerationStage :=
  match wp.status with
  | .pending => .initializing
  | .running =>
    if pyTruthy wp.currentNode then
      let nodeName := wp.nodeName.getD ""
      if strInLower "checkpoint" nodeName || strInLower "load" nodeName then
        .loadingModels
      else if strInLower "encode" nodeName || strInLower "clip" nodeName then
        .encoding
      else if strInLower "sampler" nodeName
          || strInLower "ksampler" nodeName then
        .sampling
      else if strInLower "decode" nodeName || strInLower "vae" nodeName then
        .decoding
      else if strInLower "save" nodeName then
        .postProcessing
      else
        stageFromElapsed job now
    else
      stageFromElapsed job now
  | .success => .postProcessing
  | .error => job.currentStage

/-- Stage weights of `_calculate_percent` (lines 281-289); every stage is
a key, so the `.get(…, 0.0)` fallback is unreachable. -/
def stageWeight : GenerationStage → Rat
  | .initializing => 2
  | .loadingModels => 10
  | .encoding => 3
  | .sampling => 80
  | .decoding => 4
  | .postProcessing => 1

/-- `ProgressTracker._calculate_percent` (lines 263-316). -/
def calculatePercent (t : ProgressTracker) (job : JobProgress)
    (stage : GenerationStage) (step totalSteps : Int) (now : Rat) : Rat :=
  let completedPercent := (job.completedStages.map stageWeight).sum
  let currentWeight := stageWeight stage
  let stageProgress :=
    if stage = .sampling ∧ totalSteps > 0 then
      ((step : Rat) / (totalSteps : Rat)) * currentWeight
    else
      let stageDuration := job.stageElapsedS now
      let estimatedDuration := (t.stageTimings stage).estimate
      if estimatedDuration > 0 then
        min 1 (stageDuration / estimatedDuration) * currentWeight
      else 0
  min 100 (max 0 (completedPercent + stageProgress))

/-- `stage_order` and `_get_remaining_stages` (lines 380-402): the slice
after the current stage's (always-found) index. -/
def stageOrder : List GenerationStage :=
  [.initializing, .loadingModels, .encoding, .sampling, .decoding,
   .postProcessing]

def remainingStages (current : GenerationStage) : List GenerationStage :=
  (stageOrder.dropWhile (fun s => s ≠ current)).drop 1

/-- `ProgressTracker._estimate_step_duration` (lines 358-378). -/
def estimateStepDuration (t : ProgressTracker) (job : JobProgress)
    (currentStep : Int) (now : Rat) : Rat :=
  if currentStep > 0 then job.stageElapsedS now / (currentStep : Rat)
  else if t.stepDurations ≠ [] then
    t.stepDurations.sum / (t.stepDurations.length : Rat)
  else 0.5

/-- `ProgressTracker._calculate_eta` (lines 318-356). -/
def calculateEta (t : ProgressTracker) (job : JobProgress)
    (stage : GenerationStage) (step totalSteps : Int) (now : Rat) : Rat :=
  let stageEta :=
    if stage = .sampling then
      if step > 0 ∧ totalSteps > 0 then
        ((totalSteps - step : Int) : Rat) * estimateStepDuration t job step now
      else (t.stageTimings stage).estimate
    else max 0 ((t.stageTimings stage).estimate - job.stageElapsedS now)
  stageEta
    + ((remainingStages stage).map (fun s => (t.stageTimings s).estimate)).sum

/-- Record a sample into one stage's timings table. -/
def recordStageSample (t : ProgressTracker) (stage : GenerationStage)
    (durationS : Rat) : ProgressTracker :=
  { t with stageTimings := fun s =>
      if s = stage then (t.stageTimings s).addSample durationS
      else t.stageTimings s }

/-- `ProgressTracker.update_progress` (lines 145-191): an untracked id
returns the neutral tuple `(INITIALIZING, 0, 100, 0.0, 0.0)` and leaves
the tracker untouched; otherwise the stage is mapped, a stage change
flushes the previous stage's duration into its timings, and the job's
percent/ETA are computed. -/
def updateProgress (t : ProgressTracker) (jobId : String)
    (wp : WorkflowProgress) (now : Rat) :
    (GenerationStage × Int × Int × Rat × Rat) × ProgressTracker :=
  match alget t.activeJobs jobId with
  | none => ((.initializing, 0, 100, 0, 0), t)
  | some job =>
    let stage := mapStatusToStage wp job now
    let t1 := if stage = job.currentStage then t
      else recordStageSample t job.currentStage (job.stageElapsedS now)
    let job1 := if stage = job.currentStage then job
      else job.updateStage stage now
    let step := wp.step
    let totalSteps := job1.totalSteps
    let percent := calculatePercent t1 job1 stage step totalSteps now
    let etaS := calculateEta t1 job1 stage step totalSteps now
    let job2 := { job1 with currentStep := step }
    ((stage, step, totalSteps, percent, etaS),
     { t1 with activeJobs := aldictSet t1.activeJobs jobId job2 })

/-- `del d[k]` on the active-jobs dict. -/
def aldel {β : Type} (l : List (String × β)) (id : String) :
    List (String × β) :=
  l.filter (fun kv => kv.1 ≠ id)

/-- `ProgressTracker.complete_job` (lines 193-208). -/
def trackerCompleteJob (t : ProgressTracker) (jobId : String) (now : Rat) :
    ProgressTracker :=
  match alget t.activeJobs jobId with
  | none => t
  | some job =>
    let t1 := recordStageSample t job.currentStage (job.stageElapsedS now)
    { t1 with activeJobs := aldel t1.activeJobs jobId }

/-! ### Tracker theorems -/

/-- A raw backend signal from a running workflow. -/
def wpRunning : WorkflowProgress := { promptId := "pid", status := .running }

/-- **C7 counterexample.** `update_progress` on a job id that was never
started does not fail: it returns the defaulted neutral tuple
`(INITIALIZING, 0, 100, 0.0, 0.0)` and leaves the tracker unchanged
(progress_tracker.py lines 159-168, comment "Job not tracked - return
neutral progress"), rather than raising a typed error. -/
theorem c7_counterexample_unknown_id_defaults :
    (updateProgress mkProgressTracker "x" wpRunning 0).1
      = (.initializing, 0, 100, 0, 0) ∧
    (updateProgress mkProgressTracker "x" wpRunning 0).2
      = mkProgressTracker := by
  exact ⟨rfl, rfl⟩

/-- **C7 (amended).** `update_progress` with a job id that was never
started silently returns the defaulted neutral progress tuple
`(INITIALIZING, 0, 100, 0.0, 0.0)` and leaves the tracker state
untouched; it does not raise. -/
theorem c7_amended_unknown_id_neutral :
    ∀ (t : ProgressTracker) (jobId : String) (wp : WorkflowProgress)
      (now : Rat),
      alget t.activeJobs jobId = none →
      updateProgress t jobId wp now = ((.initializing, 0, 100, 0, 0), t) := by
  intro t jobId wp now h
  simp [updateProgress, h]

/-- Witness for the amended C7 at a concrete unknown id. -/
theorem c7_amended_unknown_id_neutral_witness :
    updateProgress mkProgressTracker "x" wpRunning 0
      = ((.initializing, 0, 100, 0, 0), mkProgressTracker) :=
  c7_amended_unknown_id_neutral mkProgressTracker "x" wpRunning 0 rfl

/-- **C8.** With zero samples `estimate()` returns each stage's hardcoded
default, and after one sample of `4.0` it returns `4.0`. -/
theorem c8_estimate_defaults_and_single_sample :
    ∀ stage : GenerationStage,
      (StageTimings.mk stage [] 100).estimate = stageDefault stage ∧
      ((StageTimings.mk stage [] 100).addSample 4).estimate = 4 := by
  intro stage
  cases stage <;> refine ⟨rfl, ?_⟩ <;>
    simp [StageTimings.addSample, StageTimings.estimate, StageTimings.average]

/-- Stage weights are nonnegative. -/
theorem stageWeight_nonneg (s : GenerationStage) : 0 ≤ stageWeight s := by
  cases s <;> norm_num [stageWeight]

/-- A duplicate-free list of pre-sampling stages weighs at most
2 + 10 + 3 = 15. -/
theorem completed_weight_le_fifteen (l : List GenerationStage)
    (hnd : l.Nodup)
    (hall : ∀ s ∈ l,
      s = .initializing ∨ s = .loadingModels ∨ s = .encoding) :
    (l.map stageWeight).sum ≤ 15 := by
  have hsub : l.toFinset ⊆
      ({.initializing, .loadingModels, .encoding} : Finset GenerationStage) := by
    intro s hs
    rcases hall s (List.mem_toFinset.mp hs) with h | h | h <;> simp [h]
  have heq : (l.map stageWeight).sum = ∑ s ∈ l.toFinset, stageWeight s :=
    (List.sum_toFinset stageWeight hnd).symm
  rw [heq]
  calc ∑ s ∈ l.toFinset, stageWeight s
      ≤ ∑ s ∈ ({.initializing, .loadingModels, .encoding} :
          Finset GenerationStage), stageWeight s :=
        Finset.sum_le_sum_of_subset_of_nonneg hsub
          (fun i _ _ => stageWeight_nonneg i)
    _ = 15 := by
        rw [Finset.sum_insert (by decide), Finset.sum_insert (by decide),
          Finset.sum_singleton]
        norm_num [stageWeight]

/-- A list of stage weights sums to a nonnegative value. -/
theorem completed_weight_nonneg (l : List GenerationStage) :
    0 ≤ (l.map stageWeight).sum := by
  apply List.sum_nonneg
  intro x hx
  obtain ⟨s, _, rfl⟩ := List.mem_map.mp hx
  exact stageWeight_nonneg s

/-- **C9.** For a tracked job with `total_steps = 20` whose completed
stages are a duplicate-free subset of the stages preceding Sampling, an
`update_progress` call whose signal maps to the Sampling stage (already
the current stage) and reports `step = 10` yields a percent in
[30, 70]. -/
theorem c9_sampling_percent_bounds :
    ∀ (t : ProgressTracker) (jobId : String) (job : JobProgress)
      (wp : WorkflowProgress) (now : Rat),
      alget t.activeJobs jobId = some job →
      job.currentStage = .sampling →
      mapStatusToStage wp job now = .sampling →
      wp.step = 10 →
      job.totalSteps = 20 →
      job.completedStages.Nodup →
      (∀ s ∈ job.completedStages,
        s = .initializing ∨ s = .loadingModels ∨ s = .encoding) →
      30 ≤ (updateProgress t jobId wp now).1.2.2.2.1 ∧
      (updateProgress t jobId wp now).1.2.2.2.1 ≤ 70 := by
  intro t jobId job wp now hget hcur hmap hstep htot hnd hall
  have hred : (updateProgress t jobId wp now).1.2.2.2.1
      = calculatePercent t job .sampling 10 20 now := by
    simp only [updateProgress, hget, hmap, hcur, eq_self_iff_true, if_true,
      ite_true, hstep, htot]
  rw [hred]
  have hprog : calculatePercent t job .sampling 10 20 now
      = min 100 (max 0 ((job.completedStages.map stageWeight).sum + 40)) := by
    norm_num [calculatePercent, stageWeight]
  rw [hprog]
  have h1 := completed_weight_le_fifteen job.completedStages hnd hall
  have h2 := completed_weight_nonneg job.completedStages
  rw [max_eq_right (by linarith), min_eq_right (by linarith)]
  constructor <;> linarith

/-- A job halfway through Sampling with the three lead-in stages done. -/
def c9job : JobProgress :=
  { jobId := "j", promptId := "p", totalSteps := 20, startTime := 0,
    currentStage := .sampling, currentStep := 9, stageStartTime := 2,
    completedStages := [.initializing, .loadingModels, .encoding] }

/-- A tracker with `c9job` active. -/
def c9tracker : ProgressTracker :=
  { mkProgressTracker with activeJobs := [("j", c9job)] }

/-- A raw signal reporting sampling step 10 from the KSampler node. -/
def wpSampling : WorkflowProgress :=
  { promptId := "p", status := .running, currentNode := some "5",
    nodeName := some "KSampler", step := 10, totalSteps := 20 }

/-- Witness for C9 at a concrete tracked job. -/
theorem c9_sampling_percent_bounds_witness :
    30 ≤ (updateProgress c9tracker "j" wpSampling 5).1.2.2.2.1 ∧
    (updateProgress c9tracker "j" wpSampling 5).1.2.2.2.1 ≤ 70 :=
  c9_sampling_percent_bounds c9tracker "j" c9job wpSampling 5
    rfl rfl rfl rfl rfl (by decide) (by decide)

/-! ## Job executor (`src/python/workers/job_executor.py`)

`JobExecutor.execute_job` is embedded as a function of the run's
externally observable inputs: whether the client was initialized, the
workflow-loading outcome, the sequence of poll callbacks fired by
`wait_for_completion` (each with the raw signal, its clock value and the
cancellation flag at that tick), the final outcome of the wait, the
cancellation flag at the post-wait check, and the clock/timestamp values
it reads.  It returns the `(success, output_path, error)` triple, the
list of published updates in order, and the final tracker state. -/

/-- Final outcome of `ComfyUIClient.wait_for_completion` as observed by
`execute_job`: the workflow output (image urls and duration), a raised
`TimeoutError`, or any other raised exception. -/
inductive WaitOutcome where
  | success (images : List String) (durationS : Rat)
  | timeout (msg : String)
  | failure (msg : String)
  deriving DecidableEq, Repr

/-- One poll callback: the raw signal, the clock at that tick, and
whether the job id was in `cancelled_jobs` at that tick. -/
structure ExecTick where
  wp : WorkflowProgress
  now : Rat
  cancelled : Bool
  deriving DecidableEq, Repr

/-- `JobExecutor._handle_progress` (lines 256-285): a cancelled tick
interrupts and publishes nothing; otherwise the tracker is updated and
one `Progress` update is published. -/
def handleProgress (tr : ProgressTracker) (jobId : String) (tick : ExecTick) :
    ProgressTracker × List Update :=
  if tick.cancelled then (tr, [])
  else
    match updateProgress tr jobId tick.wp tick.now with
    | ((stage, step, totalSteps, percent, etaS), tr') =>
      (tr', [.progress jobId stage step totalSteps percent etaS])

/-- The sequence of progress callbacks fired during
`wait_for_completion`. -/
def runTicks (tr : ProgressTracker) (jobId : String) :
    List ExecTick → ProgressTracker × List Update
  | [] => (tr, [])
  | tick :: rest =>
    match handleProgress tr jobId tick with
    | (tr1, evs1) =>
      match runTicks tr1 jobId rest with
      | (tr2, evs2) => (tr2, evs1 ++ evs2)

/-- The `(success, output_path, error_message)` triple returned by
`execute_job`. -/
structure ExecResult where
  success : Bool
  outputPath : Option String
  errorMsg : Option String
  deriving DecidableEq, Repr

/-- `JobExecutor.execute_job` (job_executor.py lines 113-197).
`workflowErr` is the error message of an exception raised while loading
the workflow or submitting (e.g. `FileNotFoundError`, line 233), `ts` is
the stringified timestamp used in the output filename (line 298-299). -/
def executeJob (tr : ProgressTracker) (job : Job)
    (clientInitialized : Bool) (t0 : Int) (workflowErr : Option String)
    (promptId : String) (startNow : Rat) (ticks : List ExecTick)
    (outcome : WaitOutcome) (cancelledAtCheck : Bool)
    (outputDir ts : String) (completeNow : Rat) :
    ExecResult × List Update × ProgressTracker :=
  if !clientInitialized then
    ({ success := false, outputPath := none,
       errorMsg := some "Executor not initialized" }, [], tr)
  else
    let started : List Update := [.jobStarted job.jobId t0]
    match workflowErr with
    | some msg =>
      ({ success := false, outputPath := none,
         errorMsg := some ("Execution failed: " ++ msg) },
       started ++ [.jobFinished job.jobId false 0], tr)
    | none =>
      match startJob tr job.jobId promptId job.steps startNow with
      | (_, tr1) =>
        match runTicks tr1 job.jobId ticks with
        | (tr2, progressEvents) =>
          match outcome with
          | .timeout msg =>
            ({ success := false, outputPath := none,
               errorMsg := some ("Timeout: " ++ msg) },
             started ++ progressEvents ++ [.jobFinished job.jobId false 0],
             tr2)
          | .failure msg =>
            ({ success := false, outputPath := none,
               errorMsg := some ("Execution failed: " ++ msg) },
             started ++ progressEvents ++ [.jobFinished job.jobId false 0],
             tr2)
          | .success images durationS =>
            if cancelledAtCheck then
              ({ success := false, outputPath := none,
                 errorMsg := some "Job cancelled" },
               started ++ progressEvents, tr2)
            else if images = [] then
              ({ success := false, outputPath := none,
                 errorMsg := some "No images generated" },
               started ++ progressEvents, tr2)
            else
              let outputPath :=
                outputDir ++ "/" ++ job.jobId ++ "_" ++ ts ++ ".png"
              ({ success := true, outputPath := some outputPath,
                 errorMsg := none },
               started ++ progressEvents
                 ++ [.jobFinished job.jobId true durationS],
               trackerCompleteJob tr2 job.jobId completeNow)

/-! ### Executor theorems -/

def isProgressU : Update → Bool
  | .progress .. => true
  | _ => false

def isJobFinishedU : Update → Bool
  | .jobFinished .. => true
  | _ => false

def isJobStartedU : Update → Bool
  | .jobStarted .. => true
  | _ => false

def countJobFinished (evs : List Update) : Nat :=
  (evs.filter isJobFinishedU).length

def countJobStarted (evs : List Update) : Nat :=
  (evs.filter isJobStartedU).length

/-- The two success-path situations in which `execute_job` returns
without any `JobFinished` publication: the cancellation flag is observed
after the wait (line 158-160), or the output has no images (163-164). -/
def discardsFinished : WaitOutcome → Bool → Bool
  | .success images _, cancelled => cancelled || images.isEmpty
  | _, _ => false

def outcomeSuccess : WaitOutcome → Bool
  | .success .. => true
  | _ => false

def outcomeDuration : WaitOutcome → Rat
  | .success _ d => d
  | _ => 0

/-- Every update published from inside `wait_for_completion`'s callback
is a `Progress` update. -/
theorem runTicks_progress (jobId : String) :
    ∀ (ticks : List ExecTick) (tr : ProgressTracker),
      ∀ e ∈ (runTicks tr jobId ticks).2, isProgressU e = true := by
  intro ticks
  induction ticks with
  | nil => intro tr e he; simp [runTicks] at he
  | cons tick rest ih =>
    intro tr e he
    simp only [runTicks] at he
    rcases hh : handleProgress tr jobId tick with ⟨tr1, evs1⟩
    rw [hh] at he
    rcases hr : runTicks tr1 jobId rest with ⟨tr2, evs2⟩
    rw [hr] at he
    simp only [List.mem_append] at he
    rcases he with he | he
    · unfold handleProgress at hh
      by_cases hc : tick.cancelled
      · rw [if_pos hc] at hh
        cases hh
        simp at he
      · rw [if_neg hc] at hh
        rcases hu : updateProgress tr jobId tick.wp tick.now with ⟨q, tr'⟩
        rw [hu] at hh
        obtain ⟨s1, s2, s3, s4, s5⟩ := q
        cases hh
        simp at he
        rw [he]
        rfl
    · have := ih tr1 e (by rw [hr]; exact he)
      exact this

/-- A job used by the concrete executor scenarios. -/
def execJob0 : Job :=
  { jobId := "j1", prompt := "x", model := "m", size := [64, 64], steps := 5,
    cfgScale := 7, createdAt := 0 }

/-- **C4 counterexample.** A submitted job whose cancellation flag is
observed after the backend succeeded publishes `JobStarted` but *no*
`JobFinished`: `execute_job` returns at line 160 before the
`JobFinished` publication, so the stream does not contain exactly one
`JobFinished` for a cancelled job. -/
theorem c4_counterexample_cancelled_stream_lacks_finished :
    countJobStarted (executeJob mkProgressTracker execJob0 true 100 none
      "pid" 0 [] (.success ["a.png"] 2) true "outputs" "111" 3).2.1 = 1 ∧
    countJobFinished (executeJob mkProgressTracker execJob0 true 100 none
      "pid" 0 [] (.success ["a.png"] 2) true "outputs" "111" 3).2.1 = 0 :=
  ⟨rfl, rfl⟩

/-- **C4 (amended).** With an initialized executor, the published stream
for a job is exactly one `JobStarted`, then zero or more `Progress`
updates, then exactly one `JobFinished` — *except* that no `JobFinished`
is published when the backend succeeded but the cancellation flag was
observed at the post-wait check, or when the output contained no images;
a workflow-loading failure publishes `JobStarted` directly followed by
`JobFinished{success:false}`. -/
theorem c4_amended_event_stream :
    (∀ (tr : ProgressTracker) (job : Job) (t0 : Int) (promptId : String)
       (startNow : Rat) (ticks : List ExecTick) (outcome : WaitOutcome)
       (cancelledAtCheck : Bool) (outputDir ts : String) (completeNow : Rat),
      ∃ ps, (∀ e ∈ ps, isProgressU e = true) ∧
        (executeJob tr job true t0 none promptId startNow ticks outcome
          cancelledAtCheck outputDir ts completeNow).2.1
          = .jobStarted job.jobId t0 :: ps
            ++ (if discardsFinished outcome cancelledAtCheck then []
                else [.jobFinished job.jobId (outcomeSuccess outcome)
                  (outcomeDuration outcome)])) ∧
    (∀ (tr : ProgressTracker) (job : Job) (t0 : Int) (msg promptId : String)
       (startNow : Rat) (ticks : List ExecTick) (outcome : WaitOutcome)
       (cancelledAtCheck : Bool) (outputDir ts : String) (completeNow : Rat),
      (executeJob tr job true t0 (some msg) promptId startNow ticks outcome
        cancelledAtCheck outputDir ts completeNow).2.1
        = [.jobStarted job.jobId t0, .jobFinished job.jobId false 0]) := by
  constructor
  · intro tr job t0 promptId startNow ticks outcome cancelledAtCheck
      outputDir ts completeNow
    rcases hstart : startJob tr job.jobId promptId job.steps startNow
      with ⟨p0, tr1⟩
    rcases hticks : runTicks tr1 job.jobId ticks with ⟨tr2, ps⟩
    refine ⟨ps, ?_, ?_⟩
    · intro e he
      exact runTicks_progress job.jobId ticks tr1 e (by rw [hticks]; exact he)
    · cases outcome with
      | timeout msg =>
        simp [executeJob, hstart, hticks, discardsFinished, outcomeSuccess,
          outcomeDuration]
      | failure msg =>
        simp [executeJob, hstart, hticks, discardsFinished, outcomeSuccess,
          outcomeDuration]
      | success images durationS =>
        cases cancelledAtCheck with
        | true =>
          simp [executeJob, hstart, hticks, discardsFinished]
        | false =>
          by_cases himg : images = []
          · simp [executeJob, hstart, hticks, discardsFinished, himg]
          · simp [executeJob, hstart, hticks, discardsFinished, himg,
              outcomeSuccess, outcomeDuration,
              List.isEmpty_iff.not.mpr himg]
  · intro tr job t0 msg promptId startNow ticks outcome cancelledAtCheck
      outputDir ts completeNow
    simp [executeJob]

/-- **C5 counterexample.** When the cancellation flag is set and the
backend has already produced a successful result with an artifact,
`execute_job` does *not* return success with the output path: it returns
`(False, None, "Job cancelled")` without downloading (job_executor.py
lines 157-160 run before the download at line 166). -/
theorem c5_counterexample_finished_artifact_discarded :
    (executeJob mkProgressTracker execJob0 true 100 none "pid" 0 []
      (.success ["ComfyUI_00001.png"] 2) true "outputs" "111" 3).1
      = { success := false, outputPath := none,
          errorMsg := some "Job cancelled" } := rfl

/-- **C5 (amended).** If the job's cancellation flag is set by the time
`execute_job` checks it after the backend completed — even when the
backend produced a final successful result with artifacts — the job is
reported cancelled: `execute_job` returns `(False, None, "Job
cancelled")` and the finished artifact is never downloaded. -/
theorem c5_amended_cancel_discards_finished_artifact :
    ∀ (tr : ProgressTracker) (job : Job) (t0 : Int) (promptId : String)
      (startNow : Rat) (ticks : List ExecTick) (images : List String)
      (durationS : Rat) (outputDir ts : String) (completeNow : Rat),
      (executeJob tr job true t0 none promptId startNow ticks
        (.success images durationS) true outputDir ts completeNow).1
        = { success := false, outputPath := none,
            errorMsg := some "Job cancelled" } := by
  intro tr job t0 promptId startNow ticks images durationS outputDir ts
    completeNow
  rcases hstart : startJob tr job.jobId promptId job.steps startNow
    with ⟨p0, tr1⟩
  rcases hticks : runTicks tr1 job.jobId ticks with ⟨tr2, ps⟩
  simp [executeJob, hstart, hticks]

/-! ## Priority batch scheduler (`src/python/batch/batch_processor.py`)

The scheduler's `PriorityQueue` holds tuples
`(priority, time.time(), job_id)` (submit_job, line 218) which Python
orders lexicographically; the worker loop receives them smallest first
(lines 289-293).  Entries submitted at distinct clock values are totally
ordered before the job-id component of the tuple is ever compared, so
the queue is embedded as a list drained by taking the leftmost entry
that is minimal under the `(priority, timestamp)` key. -/

/-- `JobPriority` (lines 26-31): lower value = higher priority. -/
inductive JobPriority where
  | urgent
  | high
  | normal
  | low
  deriving DecidableEq, Repr

def JobPriority.val : JobPriority → Int
  | .urgent => 0
  | .high => 1
  | .normal => 2
  | .low => 3

/-- One `PriorityQueue` entry `(priority, time.time(), job_id)`. -/
structure QueueEntry where
  priority : Int
  timestamp : Rat
  jobId : String
  deriving DecidableEq, Repr

/-- The `(priority, timestamp)` prefix of Python's tuple order. -/
def entryKeyLe (a b : QueueEntry) : Bool :=
  decide (a.priority < b.priority)
    || (decide (a.priority = b.priority)
        && decide (a.timestamp ≤ b.timestamp))

/-- `submit_job`'s queue effect (line 218). -/
def submitEntry (q : List QueueEntry) (priority : JobPriority)
    (jobId : String) (now : Rat) : List QueueEntry :=
  q ++ [⟨priority.val, now, jobId⟩]

/-- `PriorityQueue.get`: removes and returns the least entry (leftmost
among entries with equal `(priority, timestamp)` keys). -/
def popMin : List QueueEntry → Option (QueueEntry × List QueueEntry)
  | [] => none
  | e :: rest =>
    match popMin rest with
    | none => some (e, [])
    | some (m, rest') =>
      if entryKeyLe e m then some (e, rest) else some (m, e :: rest')

/-- The job-id order in which the worker loop receives jobs from the
queue over a number of `get` calls (lines 289-293). -/
def drainQueue : Nat → List QueueEntry → List String
  | 0, _ => []
  | n + 1, q =>
    match popMin q with
    | none => []
    | some (e, rest) => e.jobId :: drainQueue n rest

/-- **C10.** Batches are dequeued in ascending priority value
(Urgent 0 < High 1 < Normal 2 < Low 3) with insertion order as the
tiebreak among equal priorities; submitting [Low, Urgent, Normal] makes
the worker receive Urgent, then Normal, then Low. -/
theorem c10_priority_dequeue :
    drainQueue 3 (submitEntry (submitEntry (submitEntry [] .low "low" 1)
        .urgent "urgent" 2) .normal "normal" 3)
      = ["urgent", "normal", "low"] ∧
    (JobPriority.urgent.val < JobPriority.high.val ∧
     JobPriority.high.val < JobPriority.normal.val ∧
     JobPriority.normal.val < JobPriority.low.val) ∧
    (∀ (p : Int) (t1 t2 : Rat) (a b : String), t1 ≤ t2 →
      drainQueue 2 [⟨p, t1, a⟩, ⟨p, t2, b⟩] = [a, b]) := by
  refine ⟨by decide, by decide, ?_⟩
  intro p t1 t2 a b ht
  simp [drainQueue, popMin, entryKeyLe, ht, lt_irrefl]

/-- Witness for the C10 tiebreak at concrete equal-priority entries. -/
theorem c10_priority_dequeue_witness :
    drainQueue 2 [⟨1, 0, "x"⟩, ⟨1, 1, "y"⟩] = ["x", "y"] :=
  c10_priority_dequeue.2.2 1 0 1 "x" "y" (by norm_num)

/-! ## IPC server generate handler (`src/python/workers/zmq_server.py`) -/

/-- `GenerateRequest` dataclass as received by the handler
(message_protocol.py lines 54-67). -/
structure GenerateRequest where
  id : String
  prompt : String
  model : String
  size : List Int
  steps : Int
  cfgScale : Rat
  lora : Option String := none
  batchSize : Option Int := none
  animationFrames : Option Int := none
  tilesetGrid : Option (List Int) := none
  deriving DecidableEq, Repr

/-- The `TypeError` Python raises at zmq_server.py line 214:
`JobQueue.estimate_time` (job_queue.py line 131) accepts only `steps`,
but the handler passes `steps, batch_size, animation_frames`. -/
def estimateTimeArityError : String :=
  "JobQueue.estimate_time() takes 2 positional arguments but 4 were given"

/-- `ZmqServer._handle_generate` (zmq_server.py lines 199-224): the job
is added to the queue (lines 203-211), then line 214 calls
`estimate_time` with three arguments although the method takes one, so a
`TypeError` is raised before the `JobStartedUpdate` publication (line
217) and the `JobAccepted` return (line 221); the `except Exception`
(line 223) turns the valid request into a `JobErrorResponse`. -/
def handleGenerate (s : JobQueueState) (req : GenerateRequest) (now : Rat) :
    JobQueueState × Response :=
  match addJob s req.prompt req.model req.size req.steps req.cfgScale
      req.lora req.id now with
  | (_, s1) => (s1, .jobError req.id estimateTimeArityError)

/-- The valid generate request sent by ws_09
`test_server_generate_request`. -/
def c2request : GenerateRequest :=
  { id := "test-job-001", prompt := "16-bit knight sprite",
    model := "sdxl-base", size := [1024, 1024], steps := 30,
    cfgScale := 7.5 }

/-- **C2 (code bug).** On the valid generate request of the repository's
own integration test, the handler enqueues the job but then raises a
`TypeError` in the `estimate_time` call, answering `JobErrorResponse`
instead of the `JobAccepted{id, steps × 0.1}` that the spec and the test
(ws_09 test_integration.py lines 148-151) expect.  `estimate_time`
itself, called correctly, would give 30 × 0.1 = 3.0 seconds. -/
theorem c2_generate_type_error :
    (handleGenerate emptyJobQueue c2request 0).2
      = .jobError "test-job-001" estimateTimeArityError ∧
    (∀ (jobId : String) (est : Rat),
      (handleGenerate emptyJobQueue c2request 0).2 ≠ .jobAccepted jobId est) ∧
    estimateTime 30 = 3 ∧
    (getJob (handleGenerate emptyJobQueue c2request 0).1
      "test-job-001").isSome = true := by
  refine ⟨rfl, ?_, by norm_num [estimateTime], rfl⟩
  intro jobId est h
  rw [show (handleGenerate emptyJobQueue c2request 0).2
      = Response.jobError "test-job-001" estimateTimeArityError from rfl] at h
  exact Response.noConfusion h

end DgxPixels
